import Mathlib

/-!
Verification development for the TTS-STT repository.

Shallow embedding of the text-to-speech components:
  - TTS.py      : class TextToSpeech (voice catalog, voice selection, save_audio)
  - tts_backend.py : class TTSHandler (the local HTTP server: /tts, /voices,
                     /cleanup, the age sweep of the audio store)
  - api/tts.py  : class handler (the serverless /tts variant)

Pure data (text, filenames, the store directory) is embedded directly; the
effectful pieces (the external edge-tts subprocess, the filesystem) are
embedded as explicit parameters describing the outcome the environment
produces (process exit result, whether the written file exists and its size,
which individual file removals fail), so that every handler is a total
computable function of its request plus that environment description.
-/

namespace TTSSTT

/-! ### Voice catalog, from TTS.py (class attribute VOICES, lines 39-69) -/

/-- Metadata of one catalog voice, from the VOICES dictionary values in TTS.py. -/
structure VoiceInfo where
  name : String
  gender : String
  language : String
  style : String
deriving Repr, DecidableEq

/-- The VOICES class attribute of TextToSpeech (TTS.py lines 39-69):
a static association list from voice identifier to metadata. -/
def VOICES : List (String × VoiceInfo) :=
  [("en-US-JennyNeural", ⟨"Jenny", "Female", "English (US)", "Friendly"⟩),
   ("en-US-GuyNeural", ⟨"Guy", "Male", "English (US)", "Friendly"⟩),
   ("en-US-AriaNeural", ⟨"Aria", "Female", "English (US)", "News"⟩),
   ("en-US-DavisNeural", ⟨"Davis", "Male", "English (US)", "News"⟩),
   ("en-US-JaneNeural", ⟨"Jane", "Female", "English (US)", "Clear"⟩),
   ("en-US-JasonNeural", ⟨"Jason", "Male", "English (US)", "Energetic"⟩),
   ("en-US-SaraNeural", ⟨"Sara", "Female", "English (US)", "Gentle"⟩),
   ("en-US-TonyNeural", ⟨"Tony", "Male", "English (US)", "Professional"⟩),
   ("en-GB-SoniaNeural", ⟨"Sonia", "Female", "English (UK)", "British"⟩),
   ("en-GB-RyanNeural", ⟨"Ryan", "Male", "English (UK)", "British"⟩),
   ("en-IN-NeerjaNeural", ⟨"Neerja", "Female", "English (India)", "Indian"⟩),
   ("en-IN-PrabhatNeural", ⟨"Prabhat", "Male", "English (India)", "Indian"⟩),
   ("es-ES-ElviraNeural", ⟨"Elvira", "Female", "Spanish (Spain)", "Spanish"⟩),
   ("es-ES-AlvaroNeural", ⟨"Alvaro", "Male", "Spanish (Spain)", "Spanish"⟩),
   ("fr-FR-DeniseNeural", ⟨"Denise", "Female", "French (France)", "French"⟩),
   ("fr-FR-HenriNeural", ⟨"Henri", "Male", "French (France)", "French"⟩),
   ("de-DE-KatjaNeural", ⟨"Katja", "Female", "German (Germany)", "German"⟩),
   ("de-DE-ConradNeural", ⟨"Conrad", "Male", "German (Germany)", "German"⟩)]

/-- The identifiers (dictionary keys) of the VOICES catalog. -/
def voiceIds : List String := VOICES.map Prod.fst

/-- DEFAULT_VOICE class attribute (TTS.py line 71). -/
def DEFAULT_VOICE : String := "en-US-JennyNeural"

/-- Voice resolution performed by the TextToSpeech constructor
(TTS.py line 86): self.voice = voice if voice and voice in self.VOICES
else self.DEFAULT_VOICE.  A Python None argument is Option.none; the empty
string is falsy in Python, hence the explicit emptiness test. -/
def initVoice : Option String → String
  | none => DEFAULT_VOICE
  | some v => if v != "" && voiceIds.contains v then v else DEFAULT_VOICE

/-- TextToSpeech.set_voice (TTS.py lines 129-145): the state is the current
voice string; returns the new state and the boolean result. -/
def set_voice (cur : String) (v : String) : String × Bool :=
  if voiceIds.contains v then (v, true) else (cur, false)

/-! ### Synthesis invoker, from TTS.py TextToSpeech.save_audio (lines 223-261) -/

/-- The arguments of the one subprocess.run call made by save_audio
(TTS.py lines 238-247).  The Python call passes no timeout argument at
all, so timeoutSec is none. -/
structure RunArgs where
  command : List String
  timeoutSec : Option Nat
deriving Repr, DecidableEq

/-- The CompletedProcess value subprocess.run returns when the child exits. -/
structure ProcResult where
  returncode : Int
  stdout : String
  stderr : String
deriving Repr, DecidableEq

/-- Outcome of the subprocess.run call: either the child completed with a
result, or the call raised an exception (caught by the except clause at
TTS.py line 259). -/
inductive RunOutcome where
  | completed (r : ProcResult)
  | exn (msg : String)
deriving Repr, DecidableEq

/-- The command list and (absent) timeout that save_audio hands to
subprocess.run (TTS.py lines 238-247).  Text is a list of characters. -/
def saveAudioArgs (voice : String) (text : List Char) (filename : String) : RunArgs :=
  ⟨["edge-tts", "--voice", voice, "--text", String.mk text, "--write-media", filename], none⟩

/-- TextToSpeech.save_audio return value (TTS.py lines 249-261) as a function
of the subprocess outcome: True exactly when the child completed with
returncode 0; every failure path returns False (the diagnostic text is only
printed, never returned). -/
def save_audio : RunOutcome → Bool
  | .completed r => r.returncode == 0
  | .exn _ => false

/-! ### Audio file store and cleanup, from tts_backend.py -/

/-- One file of the audio directory: its basename and its on-disk creation
time in seconds (what os.path.getctime returns). -/
structure StoredFile where
  name : String
  ctime : Int
deriving Repr, DecidableEq

/-- The generated-file name marker "tts_temp_" (tts_backend.py lines 226, 294, 318). -/
def tempMarker : String := "tts_temp_"

/-- The filename.startswith("tts_temp_") test of tts_backend.py (lines 294,
318, 361), computed on the character lists of the strings. -/
def startsWithMarker (name : String) : Bool :=
  tempMarker.toList.isPrefixOf name.toList

/-- max_age = 3600 seconds (tts_backend.py line 290). -/
def MAX_AGE : Int := 3600

/-- Whether the age sweep removes file f at time now, when the individual
os.remove calls that fail are those with fails name = true
(tts_backend.py lines 293-299): the name carries the tts_temp_ marker, the
age now - ctime strictly exceeds MAX_AGE, and the removal succeeds. -/
def sweepTarget (now : Int) (fails : String → Bool) (f : StoredFile) : Bool :=
  startsWithMarker f.name && decide (MAX_AGE < now - f.ctime) && !fails f.name

/-- TTSHandler.cleanup_old_files (tts_backend.py lines 282-308): returns the
store after the sweep and the number of files removed.  A failed removal is
caught per file (line 302) and the loop continues, so the result is a
pointwise filter. -/
def cleanup_old_files (now : Int) (fails : String → Bool) (store : List StoredFile) :
    List StoredFile × Nat :=
  (store.filter (fun f => !sweepTarget now fails f),
   (store.filter (fun f => sweepTarget now fails f)).length)

/-- Whether the explicit cleanup removes file f (tts_backend.py lines
317-324): every tts_temp_ file regardless of age, when its removal succeeds. -/
def cleanupTarget (fails : String → Bool) (f : StoredFile) : Bool :=
  startsWithMarker f.name && !fails f.name

/-- The file-removal core of TTSHandler.handle_cleanup_request
(tts_backend.py lines 313-324): new store plus count of removed files. -/
def cleanup_all (fails : String → Bool) (store : List StoredFile) :
    List StoredFile × Nat :=
  (store.filter (fun f => !cleanupTarget fails f),
   (store.filter (fun f => cleanupTarget fails f)).length)

/-- JSON body and status of the /cleanup response (tts_backend.py lines 326-332). -/
structure CleanupResponse where
  status : Nat
  success : Bool
  cleaned_files : Nat
deriving Repr, DecidableEq

/-- TTSHandler.handle_cleanup_request (tts_backend.py lines 310-337), normal
path: removes every tts_temp_ file whose removal succeeds and answers
status 200 with the count. -/
def handle_cleanup_request (fails : String → Bool) (store : List StoredFile) :
    List StoredFile × CleanupResponse :=
  ((cleanup_all fails store).1, ⟨200, true, (cleanup_all fails store).2⟩)

/-! ### The /tts request handler, from tts_backend.py TTSHandler.handle_tts_request
(lines 181-280) -/

/-- What happened around the tts.save_audio call inside the inner try of
handle_tts_request (tts_backend.py lines 244-269): either the call ran and
returned, with the environment telling whether the output file exists
afterwards and its byte size (os.path.exists and os.path.getsize, lines
249-250), or the call raised an exception caught at line 267. -/
inductive SynthStep where
  | ran (o : RunOutcome) (outFileExists : Bool) (outFileSize : Nat)
  | raised (msg : String)
deriving Repr, DecidableEq

/-- The distinct ways an incoming POST /tts request presents itself to
handle_tts_request, mirroring its branch structure: the TTS module missing
(line 185), an empty body (line 196), a JSON parse error (line 273), an
unexpected exception escaping to the outer handler (line 277), or a parsed
body with its text, optional voice field and synthesis outcome. -/
inductive TtsRequestCase where
  | noModule
  | noData
  | badJson (msg : String)
  | serverExn (msg : String)
  | parsed (text : List Char) (voice : Option String) (synth : SynthStep)

/-- The JSON response of handle_tts_request together with the HTTP status
it is sent with (the second argument of send_json_response, default 200). -/
structure TtsResponse where
  status : Nat
  success : Bool
  error : Option String
  filename : Option String
  audio_url : Option String
  file_size : Option Nat
deriving Repr, DecidableEq

/-- Observable actions of a /tts request in order: the age sweep
(cleanup_old_files call at line 218) and the synthesis invocation
(tts.save_audio call at line 247). -/
inductive Step where
  | sweep
  | synthesize
deriving Repr, DecidableEq

/-- Full result of handle_tts_request: the response, the store as the age
sweep leaves it (before the new output file is added), and the ordered
trace of sweep/synthesis actions performed. -/
structure TtsResult where
  response : TtsResponse
  store : List StoredFile
  trace : List Step
deriving Repr, DecidableEq

/-- An error response body: success false with an error string. -/
def errResp (status : Nat) (msg : String) : TtsResponse :=
  ⟨status, false, some msg, none, none, none⟩

/-- The generated artifact name (tts_backend.py line 226):
tts_temp_ followed by int(time.time()) and the .mp3 suffix. -/
def genFilename (now : Int) : String := "tts_temp_" ++ toString now ++ ".mp3"

/-- TTSHandler.handle_tts_request (tts_backend.py lines 181-280) at time now,
with store the audio directory contents and fails the removals that would
fail during the sweep.  Statuses follow the source exactly: 500 for the
missing module and the outer exception handler, 400 for empty body, bad
JSON, empty text and over-5000 text, 200 for everything after validation
(send_json_response with its default status). -/
def handle_tts_request (now : Int) (fails : String → Bool) (store : List StoredFile) :
    TtsRequestCase → TtsResult
  | .noModule =>
      ⟨errResp 500 "TTS module not available. Please install edge-tts and pygame.", store, []⟩
  | .noData => ⟨errResp 400 "No data received", store, []⟩
  | .badJson m => ⟨errResp 400 ("Invalid JSON format: " ++ m), store, []⟩
  | .serverExn m => ⟨errResp 500 ("Server error: " ++ m), store, []⟩
  | .parsed text _voice synth =>
      if text.isEmpty then ⟨errResp 400 "No text provided", store, []⟩
      else if text.length > 5000 then
        ⟨errResp 400 "Text too long (max 5000 characters)", store, []⟩
      else
        match synth with
        | .raised m =>
            ⟨errResp 200 ("Audio generation error: " ++ m),
             (cleanup_old_files now fails store).1, [.sweep, .synthesize]⟩
        | .ran o outExists sz =>
            if save_audio o && outExists then
              ⟨⟨200, true, none, some (genFilename now),
                some ("/audio/" ++ genFilename now), some sz⟩,
               (cleanup_old_files now fails store).1, [.sweep, .synthesize]⟩
            else
              ⟨errResp 200 "Failed to generate audio file",
               (cleanup_old_files now fails store).1, [.sweep, .synthesize]⟩

/-! ### The /voices endpoint, from tts_backend.py TTSHandler.send_voices_list
(lines 139-179) -/

/-- The hardcoded list the /voices endpoint answers with (tts_backend.py
lines 147-176), as (id, name, lang) triples, transcribed verbatim, the
BrandonNeurai spelling included. -/
def backendVoices : List (String × String × String) :=
  [("en-US-JennyNeural", "Jenny (US) - Friendly Female", "en-US"),
   ("en-US-GuyNeural", "Guy (US) - Friendly Male", "en-US"),
   ("en-US-AriaNeural", "Aria (US) - News Female", "en-US"),
   ("en-US-DavisNeural", "Davis (US) - News Male", "en-US"),
   ("en-US-AmberNeural", "Amber (US) - Warm Female", "en-US"),
   ("en-US-AnaNeural", "Ana (US) - Child Female", "en-US"),
   ("en-US-BrandonNeurai", "Brandon (US) - Young Male", "en-US"),
   ("en-US-ChristopherNeural", "Christopher (US) - Professional Male", "en-US"),
   ("en-US-CoraNeural", "Cora (US) - Mature Female", "en-US"),
   ("en-US-ElizabethNeural", "Elizabeth (US) - Calm Female", "en-US"),
   ("en-US-EricNeural", "Eric (US) - Casual Male", "en-US"),
   ("en-US-JacobNeural", "Jacob (US) - Conversational Male", "en-US"),
   ("en-US-JaneNeural", "Jane (US) - Clear Female", "en-US"),
   ("en-US-JasonNeural", "Jason (US) - Energetic Male", "en-US"),
   ("en-US-MichelleNeural", "Michelle (US) - Expressive Female", "en-US"),
   ("en-US-MonicaNeural", "Monica (US) - Pleasant Female", "en-US"),
   ("en-US-NancyNeural", "Nancy (US) - Storyteller Female", "en-US"),
   ("en-US-RogerNeural", "Roger (US) - Deep Male", "en-US"),
   ("en-US-SaraNeural", "Sara (US) - Gentle Female", "en-US"),
   ("en-US-SteffanNeural", "Steffan (US) - Warm Male", "en-US"),
   ("en-GB-SoniaNeural", "Sonia (UK) - British Female", "en-GB"),
   ("en-GB-RyanNeural", "Ryan (UK) - British Male", "en-GB"),
   ("en-AU-NatashaNeural", "Natasha (AU) - Australian Female", "en-AU"),
   ("en-AU-WilliamNeural", "William (AU) - Australian Male", "en-AU"),
   ("en-CA-ClaraNeural", "Clara (CA) - Canadian Female", "en-CA"),
   ("en-CA-LiamNeural", "Liam (CA) - Canadian Male", "en-CA"),
   ("en-IN-NeerjaNeural", "Neerja (IN) - Indian Female", "en-IN"),
   ("en-IN-PrabhatNeural", "Prabhat (IN) - Indian Male", "en-IN")]

/-- TTSHandler.send_voices_list (tts_backend.py lines 139-179): when the TTS
module is available it answers with the fixed backendVoices list; otherwise
an error body, modelled as none. -/
def send_voices_list (available : Bool) : Option (List (String × String × String)) :=
  if available then some backendVoices else none

/-! ### The serverless /tts variant, from api/tts.py handler.do_POST (lines 6-81) -/

/-- Outcome of the generation block of api/tts.py (lines 34-72): the
edge_tts import failed (line 63), generation completed with the
accumulated audio bytes (lines 37-46, possibly empty), or generation
raised (line 68). -/
inductive ApiGen where
  | noEdgeTts
  | ok (audioBytes : List Nat)
  | exn (msg : String)
deriving Repr, DecidableEq

/-- How a POST request presents itself to the serverless do_POST: a JSON
parse error (line 76), an unexpected exception (line 79), or a parsed body
with its text, optional voice field and generation outcome. -/
inductive ApiCase where
  | badJson
  | serverExn (msg : String)
  | parsed (text : List Char) (voice : Option String) (gen : ApiGen)

/-- The JSON body do_POST writes (api/tts.py lines 26, 52-81). -/
structure ApiResponse where
  success : Bool
  error : Option String
  audioLen : Option Nat
deriving Repr, DecidableEq

/-- Result of the serverless do_POST body logic: the JSON body, whether the
edge-tts generation was invoked, and the exact text it was invoked with
(the input truncated to 1000 characters, api/tts.py line 31). -/
structure ApiResult where
  response : ApiResponse
  synthInvoked : Bool
  synthText : Option (List Char)
deriving Repr, DecidableEq

/-- The body logic of handler.do_POST in api/tts.py (lines 16-81). -/
def api_tts_post : ApiCase → ApiResult
  | .badJson => ⟨⟨false, some "Invalid JSON format", none⟩, false, none⟩
  | .serverExn m => ⟨⟨false, some ("Server error: " ++ m), none⟩, false, none⟩
  | .parsed text _voice gen =>
      if text.isEmpty then ⟨⟨false, some "No text provided", none⟩, false, none⟩
      else
        match gen with
        | .noEdgeTts => ⟨⟨false, some "edge-tts module not available", none⟩, false, none⟩
        | .exn m =>
            ⟨⟨false, some ("TTS generation error: " ++ m), none⟩, true, some (text.take 1000)⟩
        | .ok bytes =>
            if bytes.isEmpty then
              ⟨⟨false, some "Failed to generate audio data", none⟩, true, some (text.take 1000)⟩
            else
              ⟨⟨true, none, some bytes.length⟩, true, some (text.take 1000)⟩

/-- One wire-level action of the serverless do_POST, in emission order. -/
inductive HttpEv where
  | statusLine (code : Nat)
  | header (k v : String)
  | endHeaders
  | bodyData (r : ApiResponse)
deriving Repr, DecidableEq

/-- The fixed status-and-header block do_POST emits first (api/tts.py lines
8-14), before the request body is read or parsed. -/
def apiHeaderBlock : List HttpEv :=
  [.statusLine 200,
   .header "Access-Control-Allow-Origin" "*",
   .header "Access-Control-Allow-Methods" "POST, OPTIONS",
   .header "Access-Control-Allow-Headers" "Content-Type",
   .header "Content-Type" "application/json",
   .endHeaders]

/-- The full ordered wire output of the serverless do_POST: the fixed
header block, then the JSON body computed from the request. -/
def api_tts_post_events (c : ApiCase) : List HttpEv :=
  apiHeaderBlock ++ [.bodyData (api_tts_post c).response]

/-! ### Claims -/

/-- Claim C6: for every voice identifier absent from the catalog (a Python
None and the empty string included) the constructor falls back to the
default voice en-US-JennyNeural, and for every identifier present in the
catalog that identifier is used. -/
theorem C6_voice_fallback :
    initVoice none = DEFAULT_VOICE ∧
    initVoice (some "") = DEFAULT_VOICE ∧
    (∀ v, voiceIds.contains v = false → initVoice (some v) = DEFAULT_VOICE) ∧
    (∀ v, voiceIds.contains v = true → initVoice (some v) = v) := by
  refine ⟨rfl, rfl, ?_, ?_⟩
  · intro v h
    simp only [initVoice]
    rw [if_neg]
    intro hc
    have hc2 := ((Bool.and_eq_true _ _).mp hc).2
    rw [h] at hc2
    exact Bool.noConfusion hc2
  · intro v h
    have hne : (v != "") = true := by
      rw [bne_iff_ne]
      rintro rfl
      exact absurd h (by decide)
    simp only [initVoice]
    rw [if_pos ((Bool.and_eq_true _ _).mpr ⟨hne, h⟩)]

/-- Witness for C6 at the concrete identifiers not-a-voice (absent) and
en-GB-RyanNeural (present). -/
theorem C6_voice_fallback_witness :
    initVoice (some "not-a-voice") = DEFAULT_VOICE ∧
    initVoice (some "en-GB-RyanNeural") = "en-GB-RyanNeural" :=
  ⟨C6_voice_fallback.2.2.1 "not-a-voice" (by decide),
   C6_voice_fallback.2.2.2 "en-GB-RyanNeural" (by decide)⟩

/-- Claim C9: the current voice of a TextToSpeech object is always a key of
the VOICES catalog: the constructor establishes the invariant by fallback,
set_voice accepts exactly the catalog identifiers (updating and returning
True) and leaves the voice unchanged (returning False) on any other
identifier, so the invariant is preserved. -/
theorem C9_voice_invariant :
    (∀ v, voiceIds.contains (initVoice v) = true) ∧
    (∀ cur v, voiceIds.contains v = true → set_voice cur v = (v, true)) ∧
    (∀ cur v, voiceIds.contains v = false → set_voice cur v = (cur, false)) ∧
    (∀ cur v, voiceIds.contains cur = true →
      voiceIds.contains (set_voice cur v).1 = true) := by
  refine ⟨?_, ?_, ?_, ?_⟩
  · intro v
    match v with
    | none => decide
    | some s =>
      simp only [initVoice]
      by_cases h : (s != "" && voiceIds.contains s) = true
      · rw [if_pos h]
        exact (Bool.and_eq_true _ _ |>.mp h).2
      · rw [if_neg h]
        decide
  · intro cur v h
    unfold set_voice
    rw [if_pos h]
  · intro cur v h
    unfold set_voice
    rw [if_neg]
    intro hc
    rw [h] at hc
    exact Bool.noConfusion hc
  · intro cur v h
    unfold set_voice
    by_cases hv : voiceIds.contains v = true
    · rw [if_pos hv]
      exact hv
    · rw [if_neg hv]
      exact h

/-- Witness for C9 at concrete voices: a fallback-initialised state, a
successful catalog switch, and a rejected unknown switch. -/
theorem C9_voice_invariant_witness :
    voiceIds.contains (initVoice (some "zzz")) = true ∧
    set_voice "en-US-JennyNeural" "en-GB-RyanNeural" = ("en-GB-RyanNeural", true) ∧
    set_voice "en-US-JennyNeural" "nope" = ("en-US-JennyNeural", false) ∧
    voiceIds.contains (set_voice "en-US-JennyNeural" "nope").1 = true :=
  ⟨C9_voice_invariant.1 (some "zzz"),
   C9_voice_invariant.2.1 "en-US-JennyNeural" "en-GB-RyanNeural" (by decide),
   C9_voice_invariant.2.2.1 "en-US-JennyNeural" "nope" (by decide),
   C9_voice_invariant.2.2.2 "en-US-JennyNeural" "nope" (by decide)⟩

/-- Claim C2 is false on the code: the subprocess.run call of save_audio
passes no timeout at all (so no 30-second timeout exists), and two distinct
failures, a non-zero exit carrying engine diagnostics and a raised
exception, produce the identical bare boolean False, so no failure is
surfaced to the caller as a textual reason. -/
theorem C2_counterexample :
    (saveAudioArgs "en-US-JennyNeural" ['h', 'i'] "audio/tts_temp_1.mp3").timeoutSec = none ∧
    (saveAudioArgs "en-US-JennyNeural" ['h', 'i'] "audio/tts_temp_1.mp3").timeoutSec ≠ some 30 ∧
    save_audio (.completed ⟨1, "", "engine diagnostics"⟩) = save_audio (.exn "spawn failure") :=
  ⟨rfl, by decide, rfl⟩

/-- Claim C2 amended: save_audio blocks until the external process exits,
with no timeout configured; its result is merely the boolean equivalent of
the exit status being zero (diagnostics are printed, not returned); and the
missing-output-file check after a reported success lives in the HTTP
handler, whose response is unsuccessful when the file is absent even though
save_audio returned True. -/
theorem C2_save_audio_amended (voice filename : String) (text : List Char)
    (o : RunOutcome) (now : Int) (fails : String → Bool) (store : List StoredFile)
    (sz : Nat) :
    (saveAudioArgs voice text filename).timeoutSec = none ∧
    (save_audio o = true ↔ ∃ r, o = RunOutcome.completed r ∧ r.returncode = 0) ∧
    (save_audio o = true →
      (handle_tts_request now fails store
        (.parsed ['h', 'i'] none (.ran o false sz))).response.success = false) := by
  refine ⟨rfl, ?_, ?_⟩
  · cases o with
    | completed r =>
      simp only [save_audio, beq_iff_eq, RunOutcome.completed.injEq]
      constructor
      · intro h
        exact ⟨r, rfl, h⟩
      · rintro ⟨r2, h2, h0⟩
        rw [h2]
        exact h0
    | exn m =>
      simp [save_audio]
  · intro _h
    simp [handle_tts_request, errResp]

/-- Witness for C2 amended at a zero-exit process outcome whose output file
is nonetheless absent. -/
theorem C2_save_audio_amended_witness :
    (saveAudioArgs "en-US-JennyNeural" ['h', 'i'] "audio/tts_temp_2.mp3").timeoutSec = none ∧
    (handle_tts_request 2 (fun _ => false) []
      (.parsed ['h', 'i'] none
        (.ran (.completed ⟨0, "", ""⟩) false 9))).response.success = false := by
  have h := C2_save_audio_amended "en-US-JennyNeural" "audio/tts_temp_2.mp3" ['h', 'i']
    (.completed ⟨0, "", ""⟩) 2 (fun _ => false) [] 9
  exact ⟨h.1, h.2.2 (by decide)⟩

/-- Claim C1 is false on the code: a POST /tts whose text is empty is a
validation-level failure, yet handle_tts_request answers it with HTTP
status 400, not 200 (tts_backend.py line 210 passes 400 to
send_json_response). -/
theorem C1_counterexample :
    (handle_tts_request 0 (fun _ => false) []
      (.parsed [] none (.raised "boom"))).response.status = 400 ∧
    (handle_tts_request 0 (fun _ => false) []
      (.parsed [] none (.raised "boom"))).response.status ≠ 200 :=
  ⟨rfl, by decide⟩

/-- The status discipline the code actually implements, stated from the
amended claim C1: 400 for validation-level failures (no body, bad JSON,
empty text, over-cap text), 500 for the missing module and for unexpected
server errors, and 200 for everything past validation, synthesis failures
included. -/
def amendedStatus : TtsRequestCase → Nat
  | .noModule => 500
  | .noData => 400
  | .badJson _ => 400
  | .serverExn _ => 500
  | .parsed t _ _ =>
      if t.isEmpty then 400 else if t.length > 5000 then 400 else 200

/-- When the /tts response body reports success, stated from the code: a
parsed request whose text passes both validation checks, whose synthesis
call returned (did not raise), whose save_audio result is True and whose
output file exists.  False on every other case - in particular on every
synthesis-level failure. -/
def ttsSuccessSpec : TtsRequestCase → Bool
  | .parsed t _ (.ran o ex _) =>
      !t.isEmpty && !decide (t.length > 5000) && (save_audio o && ex)
  | _ => false

/-- Claim C1 amended: validation-level failures of POST /tts (empty body,
malformed JSON, empty text, text over the 5000 cap) are answered with HTTP
400 and a success-false body, the missing module and unexpected server
errors with 500, and only requests that pass validation are answered 200;
the success field is true exactly when validation passed, save_audio
returned True and the output file exists, so every synthesis-level failure
- a raised synthesis call, a failed save_audio, or a missing output file -
is answered with status 200 and a success-false body, as the last two
clauses state explicitly. -/
theorem C1_status_amended (now : Int) (fails : String → Bool)
    (store : List StoredFile) (c : TtsRequestCase) :
    (handle_tts_request now fails store c).response.status = amendedStatus c ∧
    (handle_tts_request now fails store c).response.success = ttsSuccessSpec c ∧
    (∀ text v m, text.isEmpty = false → text.length ≤ 5000 →
      (handle_tts_request now fails store
        (.parsed text v (.raised m))).response.status = 200 ∧
      (handle_tts_request now fails store
        (.parsed text v (.raised m))).response.success = false) ∧
    (∀ text v o ex sz, text.isEmpty = false → text.length ≤ 5000 →
      (save_audio o && ex) = false →
      (handle_tts_request now fails store
        (.parsed text v (.ran o ex sz))).response.status = 200 ∧
      (handle_tts_request now fails store
        (.parsed text v (.ran o ex sz))).response.success = false) := by
  refine ⟨?_, ?_, ?_, ?_⟩
  · cases c with
    | noModule => rfl
    | noData => rfl
    | badJson m => rfl
    | serverExn m => rfl
    | parsed t v s =>
      cases s with
      | raised m =>
        simp only [handle_tts_request, amendedStatus]
        by_cases h1 : t.isEmpty = true
        · rw [if_pos h1, if_pos h1]
          rfl
        · rw [if_neg h1, if_neg h1]
          by_cases h2 : t.length > 5000
          · rw [if_pos h2, if_pos h2]
            rfl
          · rw [if_neg h2, if_neg h2]
            rfl
      | ran o ex sz =>
        simp only [handle_tts_request, amendedStatus]
        by_cases h1 : t.isEmpty = true
        · rw [if_pos h1, if_pos h1]
          rfl
        · rw [if_neg h1, if_neg h1]
          by_cases h2 : t.length > 5000
          · rw [if_pos h2, if_pos h2]
            rfl
          · rw [if_neg h2, if_neg h2]
            by_cases h3 : (save_audio o && ex) = true
            · rw [if_pos h3]
            · rw [if_neg h3]
              rfl
  · cases c with
    | noModule => rfl
    | noData => rfl
    | badJson m => rfl
    | serverExn m => rfl
    | parsed t v s =>
      cases s with
      | raised m =>
        simp only [handle_tts_request, ttsSuccessSpec]
        by_cases h1 : t.isEmpty = true
        · rw [if_pos h1]
          rfl
        · rw [if_neg h1]
          by_cases h2 : t.length > 5000
          · rw [if_pos h2]
            rfl
          · rw [if_neg h2]
            rfl
      | ran o ex sz =>
        simp only [handle_tts_request, ttsSuccessSpec]
        by_cases h1 : t.isEmpty = true
        · rw [if_pos h1, h1]
          rfl
        · have h1f : t.isEmpty = false := by
            cases hh : t.isEmpty
            · rfl
            · exact absurd hh h1
          rw [if_neg h1, h1f]
          by_cases h2 : t.length > 5000
          · rw [if_pos h2, decide_eq_true h2]
            rfl
          · rw [if_neg h2, decide_eq_false h2]
            by_cases h3 : (save_audio o && ex) = true
            · rw [if_pos h3, h3]
              rfl
            · have h3f : (save_audio o && ex) = false := by
                cases hh : (save_audio o && ex)
                · rfl
                · exact absurd hh h3
              rw [if_neg h3, h3f]
              rfl
  · intro text v m hne hlen
    simp only [handle_tts_request]
    rw [if_neg (by rw [hne]; exact fun hc => Bool.noConfusion hc),
      if_neg (Nat.not_lt.mpr hlen)]
    exact ⟨rfl, rfl⟩
  · intro text v o ex sz hne hlen h3f
    simp only [handle_tts_request]
    rw [if_neg (by rw [hne]; exact fun hc => Bool.noConfusion hc),
      if_neg (Nat.not_lt.mpr hlen),
      if_neg (by rw [h3f]; exact fun hc => Bool.noConfusion hc)]
    exact ⟨rfl, rfl⟩

/-- Witness for C1 amended at concrete inputs: a raised synthesis call and a
non-zero-exit save_audio, both answered 200 with success false, plus the
status map at a bodyless request. -/
theorem C1_status_amended_witness :
    (handle_tts_request 0 (fun _ => false) []
      TtsRequestCase.noData).response.status = amendedStatus TtsRequestCase.noData ∧
    (handle_tts_request 0 (fun _ => false) []
      (.parsed ['h'] none (.raised "engine fell over"))).response.status = 200 ∧
    (handle_tts_request 0 (fun _ => false) []
      (.parsed ['h'] none (.raised "engine fell over"))).response.success = false ∧
    (handle_tts_request 0 (fun _ => false) []
      (.parsed ['h'] none
        (.ran (.completed ⟨1, "", "err"⟩) true 5))).response.status = 200 ∧
    (handle_tts_request 0 (fun _ => false) []
      (.parsed ['h'] none
        (.ran (.completed ⟨1, "", "err"⟩) true 5))).response.success = false := by
  have h := C1_status_amended 0 (fun _ => false) [] TtsRequestCase.noData
  have hr := h.2.2.1 ['h'] none "engine fell over" (by decide) (by decide)
  have hn := h.2.2.2 ['h'] none (.completed ⟨1, "", "err"⟩) true 5
    (by decide) (by decide) (by decide)
  exact ⟨h.1, hr.1, hr.2, hn.1, hn.2⟩

/-- Claim C8 is false on the code: the /voices endpoint answers with a
hardcoded 28-entry list that is not the VOICES catalog of the TTS module;
the catalog voice es-ES-ElviraNeural is missing from the endpoint list,
while the endpoint lists en-US-AmberNeural, which is not a catalog voice. -/
theorem C8_counterexample :
    backendVoices.map (fun e => e.1) ≠ voiceIds ∧
    voiceIds.contains "es-ES-ElviraNeural" = true ∧
    (backendVoices.map (fun e => e.1)).contains "es-ES-ElviraNeural" = false ∧
    (backendVoices.map (fun e => e.1)).contains "en-US-AmberNeural" = true ∧
    voiceIds.contains "en-US-AmberNeural" = false := by
  decide

/-- Claim C8 amended: GET /voices, when the TTS module is available, returns
the fixed 28-entry id-name-lang list hardcoded in send_voices_list, not the
18-entry VOICES catalog; the two sequences disagree in both directions. -/
theorem C8_voices_amended :
    send_voices_list true = some backendVoices ∧
    send_voices_list false = none ∧
    backendVoices.length = 28 ∧
    VOICES.length = 18 ∧
    (∃ iv, iv ∈ voiceIds ∧ (backendVoices.map (fun e => e.1)).contains iv = false) ∧
    (∃ iv, iv ∈ backendVoices.map (fun e => e.1) ∧ voiceIds.contains iv = false) :=
  ⟨rfl, rfl, rfl, rfl,
   ⟨"es-ES-ElviraNeural", by decide, by decide⟩,
   ⟨"en-US-AmberNeural", by decide, by decide⟩⟩

/-- When the serverless /tts response body reports success, stated from the
code: a parsed body with nonempty text whose generation produced nonempty
audio bytes. -/
def apiSuccessSpec : ApiCase → Bool
  | .parsed t _ (.ok bytes) => !t.isEmpty && !bytes.isEmpty
  | _ => false

/-- Claim C10: the serverless /tts variant emits the status line 200 and the
full header block as a fixed prefix independent of the request, before any
body-dependent output, so malformed JSON, empty text, missing module and
synthesis errors are all delivered with status 200 and the outcome is
carried solely by the success field, which is true exactly for a nonempty
text whose generation produced nonempty audio. -/
theorem C10_api_status_precommitted (c : ApiCase) :
    api_tts_post_events c = apiHeaderBlock ++ [HttpEv.bodyData (api_tts_post c).response] ∧
    (api_tts_post_events c).head? = some (HttpEv.statusLine 200) ∧
    (api_tts_post_events c).take 6 = apiHeaderBlock ∧
    (api_tts_post c).response.success = apiSuccessSpec c := by
  refine ⟨rfl, rfl, rfl, ?_⟩
  cases c with
  | badJson => rfl
  | serverExn m => rfl
  | parsed t v g =>
    cases g with
    | noEdgeTts =>
      simp only [api_tts_post, apiSuccessSpec]
      cases h1 : t.isEmpty with
      | true => rw [if_pos rfl]
      | false => rw [if_neg (fun hc => Bool.noConfusion hc)]
    | exn m =>
      simp only [api_tts_post, apiSuccessSpec]
      cases h1 : t.isEmpty with
      | true => rw [if_pos rfl]
      | false => rw [if_neg (fun hc => Bool.noConfusion hc)]
    | ok bytes =>
      simp only [api_tts_post, apiSuccessSpec]
      cases h1 : t.isEmpty with
      | true =>
        rw [if_pos rfl]
        rfl
      | false =>
        rw [if_neg (fun hc => Bool.noConfusion hc)]
        cases h2 : bytes.isEmpty with
        | true =>
          rw [if_pos rfl]
          rfl
        | false =>
          rw [if_neg (fun hc => Bool.noConfusion hc)]
          rfl

/-- Claim C3: a success response of POST /tts exists only for a parsed
request whose synthesis ran, whose invoker (save_audio) reported success,
and whose output file exists on disk at response time; the file_size field
is exactly the on-disk byte size, and the response names the generated
file and its retrieval URL. -/
theorem C3_success_gated (now : Int) (fails : String → Bool)
    (store : List StoredFile) (c : TtsRequestCase)
    (h : (handle_tts_request now fails store c).response.success = true) :
    ∃ text v o sz, c = TtsRequestCase.parsed text v (.ran o true sz) ∧
      save_audio o = true ∧
      (handle_tts_request now fails store c).response.file_size = some sz ∧
      (handle_tts_request now fails store c).response.filename
        = some (genFilename now) ∧
      (handle_tts_request now fails store c).response.audio_url
        = some ("/audio/" ++ genFilename now) := by
  cases c with
  | noModule => simp [handle_tts_request, errResp] at h
  | noData => simp [handle_tts_request, errResp] at h
  | badJson m => simp [handle_tts_request, errResp] at h
  | serverExn m => simp [handle_tts_request, errResp] at h
  | parsed t v s =>
    cases s with
    | raised m =>
      exfalso
      simp only [handle_tts_request] at h
      by_cases h1 : t.isEmpty = true
      · rw [if_pos h1] at h
        exact Bool.noConfusion h
      · rw [if_neg h1] at h
        by_cases h2 : t.length > 5000
        · rw [if_pos h2] at h
          exact Bool.noConfusion h
        · rw [if_neg h2] at h
          exact Bool.noConfusion h
    | ran o ex sz =>
      simp only [handle_tts_request] at h ⊢
      by_cases h1 : t.isEmpty = true
      · rw [if_pos h1] at h
        exact Bool.noConfusion h
      · rw [if_neg h1] at h ⊢
        by_cases h2 : t.length > 5000
        · rw [if_pos h2] at h
          exact Bool.noConfusion h
        · rw [if_neg h2] at h ⊢
          by_cases h3 : (save_audio o && ex) = true
          · rw [if_pos h3] at h ⊢
            obtain ⟨ho, hex⟩ := (Bool.and_eq_true _ _).mp h3
            exact ⟨t, v, o, sz, by rw [hex], ho, rfl, rfl, rfl⟩
          · rw [if_neg h3] at h
            exact Bool.noConfusion h

/-- Witness for C3 at a concrete successful request: zero exit code, output
file present with 42 bytes, at time 7. -/
theorem C3_success_gated_witness :
    ∃ text v o sz,
      TtsRequestCase.parsed ['h', 'i'] none (.ran (.completed ⟨0, "", ""⟩) true 42)
        = TtsRequestCase.parsed text v (.ran o true sz) ∧
      save_audio o = true ∧
      (handle_tts_request 7 (fun _ => false) []
        (.parsed ['h', 'i'] none
          (.ran (.completed ⟨0, "", ""⟩) true 42))).response.file_size = some sz ∧
      (handle_tts_request 7 (fun _ => false) []
        (.parsed ['h', 'i'] none
          (.ran (.completed ⟨0, "", ""⟩) true 42))).response.filename
        = some (genFilename 7) ∧
      (handle_tts_request 7 (fun _ => false) []
        (.parsed ['h', 'i'] none
          (.ran (.completed ⟨0, "", ""⟩) true 42))).response.audio_url
        = some ("/audio/" ++ genFilename 7) :=
  C3_success_gated 7 (fun _ => false) []
    (.parsed ['h', 'i'] none (.ran (.completed ⟨0, "", ""⟩) true 42)) (by decide)

/-- An input text of 1001 characters, one past the serverless truncation cap. -/
def longText : List Char := List.replicate 1001 'a'

/-- Claim C7 is false on the code of the serverless variant: a /tts request
whose 1001-character text exceeds the 1000-character cap is not rejected -
api/tts.py truncates the text and invokes synthesis, and the request
succeeds. -/
theorem C7_counterexample :
    longText.length = 1001 ∧
    (api_tts_post (.parsed longText none (.ok [1, 2, 3]))).synthInvoked = true ∧
    (api_tts_post (.parsed longText none (.ok [1, 2, 3]))).response.success = true := by
  refine ⟨?_, rfl, rfl⟩
  show (List.replicate 1001 'a').length = 1001
  rw [List.length_replicate]

/-- Claim C7 amended: in the local server, text over the 5000-character cap
is rejected with a 400 success-false response and no synthesis step runs;
in the serverless variant the request is instead truncated, synthesis being
invoked with exactly the first 1000 characters, so text beyond the cap is
never passed to the synthesis engine in either variant. -/
theorem C7_cap_amended (now : Int) (fails : String → Bool) (store : List StoredFile)
    (text : List Char) (v v2 : Option String) (s : SynthStep) (g : ApiGen) :
    (text.length > 5000 →
      (handle_tts_request now fails store (.parsed text v s)).trace = [] ∧
      (handle_tts_request now fails store (.parsed text v s)).response.status = 400 ∧
      (handle_tts_request now fails store (.parsed text v s)).response.success = false) ∧
    (∀ t2, (api_tts_post (.parsed text v2 g)).synthText = some t2 →
      t2 = text.take 1000 ∧ t2.length ≤ 1000) := by
  constructor
  · intro hlen
    cases s with
    | raised m =>
      simp only [handle_tts_request]
      by_cases h1 : text.isEmpty = true
      · rw [if_pos h1]
        exact ⟨rfl, rfl, rfl⟩
      · rw [if_neg h1, if_pos hlen]
        exact ⟨rfl, rfl, rfl⟩
    | ran o ex sz =>
      simp only [handle_tts_request]
      by_cases h1 : text.isEmpty = true
      · rw [if_pos h1]
        exact ⟨rfl, rfl, rfl⟩
      · rw [if_neg h1, if_pos hlen]
        exact ⟨rfl, rfl, rfl⟩
  · intro t2 ht
    cases g with
    | noEdgeTts =>
      simp only [api_tts_post] at ht
      by_cases h1 : text.isEmpty = true
      · rw [if_pos h1] at ht
        exact Option.noConfusion ht
      · rw [if_neg h1] at ht
        exact Option.noConfusion ht
    | exn m =>
      simp only [api_tts_post] at ht
      by_cases h1 : text.isEmpty = true
      · rw [if_pos h1] at ht
        exact Option.noConfusion ht
      · rw [if_neg h1] at ht
        have h := Option.some.inj ht
        subst h
        refine ⟨rfl, ?_⟩
        rw [List.length_take]
        exact min_le_left _ _
    | ok bytes =>
      simp only [api_tts_post] at ht
      by_cases h1 : text.isEmpty = true
      · rw [if_pos h1] at ht
        exact Option.noConfusion ht
      · rw [if_neg h1] at ht
        by_cases h2 : bytes.isEmpty = true
        · rw [if_pos h2] at ht
          have h := Option.some.inj ht
          subst h
          refine ⟨rfl, ?_⟩
          rw [List.length_take]
          exact min_le_left _ _
        · rw [if_neg h2] at ht
          have h := Option.some.inj ht
          subst h
          refine ⟨rfl, ?_⟩
          rw [List.length_take]
          exact min_le_left _ _

/-- Witness for C7 amended at a 5001-character text for the local server and
the same text with a successful generation for the serverless variant. -/
theorem C7_cap_amended_witness :
    (handle_tts_request 0 (fun _ => false) []
      (.parsed (List.replicate 5001 'a') none (.raised "e"))).trace = [] ∧
    (List.replicate 5001 'a').take 1000 = (List.replicate 5001 'a').take 1000 ∧
    ((List.replicate 5001 'a').take 1000).length ≤ 1000 := by
  have h := C7_cap_amended 0 (fun _ => false) [] (List.replicate 5001 'a')
    none none (.raised "e") (.ok [1])
  have hlen : (List.replicate 5001 'a').length > 5000 := by
    rw [List.length_replicate]
    norm_num
  have h2 := h.2 ((List.replicate 5001 'a').take 1000) rfl
  exact ⟨(h.1 hlen).1, h2.1, h2.2⟩

/-- Claim C4: for every /tts request that passes validation the age sweep
runs before the synthesis step and yields the store the request continues
with; membership in the swept store is pointwise - a file is removed
exactly when it carries the tts_temp_ marker, is strictly older than
MAX_AGE, and its individual removal succeeds - so a failed removal of one
file affects neither the other files nor the request, and every file of
age at most MAX_AGE is left untouched. -/
theorem C4_age_sweep (now : Int) (fails : String → Bool) (store : List StoredFile)
    (text : List Char) (v : Option String) (s : SynthStep)
    (hne : text.isEmpty = false) (hlen : text.length ≤ 5000) :
    (handle_tts_request now fails store (.parsed text v s)).trace
      = [Step.sweep, Step.synthesize] ∧
    (handle_tts_request now fails store (.parsed text v s)).store
      = (cleanup_old_files now fails store).1 ∧
    (∀ f, f ∈ (cleanup_old_files now fails store).1 ↔
      (f ∈ store ∧ sweepTarget now fails f = false)) ∧
    (∀ f, sweepTarget now fails f = true ↔
      (startsWithMarker f.name = true ∧ MAX_AGE < now - f.ctime ∧
        fails f.name = false)) ∧
    (∀ f ∈ store, now - f.ctime ≤ MAX_AGE →
      f ∈ (cleanup_old_files now fails store).1) := by
  have hmain : ∀ s2 : SynthStep,
      (handle_tts_request now fails store (.parsed text v s2)).trace
        = [Step.sweep, Step.synthesize] ∧
      (handle_tts_request now fails store (.parsed text v s2)).store
        = (cleanup_old_files now fails store).1 := by
    intro s2
    cases s2 with
    | raised m =>
      simp only [handle_tts_request]
      rw [if_neg (by rw [hne]; exact fun hc => Bool.noConfusion hc),
        if_neg (Nat.not_lt.mpr hlen)]
      exact ⟨rfl, rfl⟩
    | ran o ex sz =>
      simp only [handle_tts_request]
      rw [if_neg (by rw [hne]; exact fun hc => Bool.noConfusion hc),
        if_neg (Nat.not_lt.mpr hlen)]
      by_cases h3 : (save_audio o && ex) = true
      · rw [if_pos h3]
        exact ⟨rfl, rfl⟩
      · rw [if_neg h3]
        exact ⟨rfl, rfl⟩
  refine ⟨(hmain s).1, (hmain s).2, ?_, ?_, ?_⟩
  · intro f
    simp [cleanup_old_files, List.mem_filter, Bool.not_eq_true']
  · intro f
    simp [sweepTarget, Bool.and_eq_true, Bool.not_eq_true', decide_eq_true_iff,
      and_assoc]
  · intro f hf hage
    have hb : decide (MAX_AGE < now - f.ctime) = false :=
      decide_eq_false (not_lt.mpr hage)
    simp [cleanup_old_files, List.mem_filter, hf, sweepTarget, hb]

/-- Witness for C4 at time 4000 on a store holding an old generated file, a
one-second-old generated file and an unrelated file. -/
theorem C4_age_sweep_witness :
    (handle_tts_request 4000 (fun _ => false)
      [⟨"tts_temp_1.mp3", 0⟩, ⟨"tts_temp_2.mp3", 3999⟩, ⟨"other.mp3", 0⟩]
      (.parsed ['h', 'i'] none (.raised "e"))).trace
      = [Step.sweep, Step.synthesize] ∧
    (StoredFile.mk "tts_temp_2.mp3" 3999) ∈
      (cleanup_old_files 4000 (fun _ => false)
        [⟨"tts_temp_1.mp3", 0⟩, ⟨"tts_temp_2.mp3", 3999⟩, ⟨"other.mp3", 0⟩]).1 ∧
    (StoredFile.mk "other.mp3" 0) ∈
      (cleanup_old_files 4000 (fun _ => false)
        [⟨"tts_temp_1.mp3", 0⟩, ⟨"tts_temp_2.mp3", 3999⟩, ⟨"other.mp3", 0⟩]).1 := by
  have h := C4_age_sweep 4000 (fun _ => false)
    [⟨"tts_temp_1.mp3", 0⟩, ⟨"tts_temp_2.mp3", 3999⟩, ⟨"other.mp3", 0⟩]
    ['h', 'i'] none (.raised "e") (by decide) (by decide)
  refine ⟨h.1, ?_, ?_⟩
  · exact h.2.2.2.2 ⟨"tts_temp_2.mp3", 3999⟩ (by decide) (by decide)
  · exact (h.2.2.1 ⟨"other.mp3", 0⟩).mpr ⟨by decide, by decide⟩

/-- Claim C5: the explicit /cleanup removes every tts_temp_ file regardless
of age (those whose individual removal succeeds), answers success with
their count, and is idempotent: when the first pass removes without
failures, a second /cleanup with no intervening generation finds no
tts_temp_ file and reports cleaned_files = 0. -/
theorem C5_cleanup_idem (store : List StoredFile) (f1 f2 : String → Bool)
    (h : ∀ f ∈ store, startsWithMarker f.name = true → f1 f.name = false) :
    (handle_cleanup_request f1 store).2.status = 200 ∧
    (handle_cleanup_request f1 store).2.success = true ∧
    (handle_cleanup_request f1 store).2.cleaned_files
      = (store.filter (fun f => startsWithMarker f.name)).length ∧
    (∀ f ∈ (handle_cleanup_request f1 store).1, startsWithMarker f.name = false) ∧
    (handle_cleanup_request f2 (handle_cleanup_request f1 store).1).2.cleaned_files
      = 0 := by
  have hnomark : ∀ f ∈ (cleanup_all f1 store).1, startsWithMarker f.name = false := by
    intro f hf
    have hmem := List.mem_filter.mp hf
    cases hs : startsWithMarker f.name with
    | false => rfl
    | true =>
      exfalso
      have hf1 := h f hmem.1 hs
      have htgt : cleanupTarget f1 f = true := by
        simp [cleanupTarget, hs, hf1]
      have h2 := hmem.2
      rw [htgt] at h2
      exact Bool.noConfusion h2
  refine ⟨rfl, rfl, ?_, hnomark, ?_⟩
  · show (store.filter (fun f => cleanupTarget f1 f)).length = _
    congr 1
    apply List.filter_congr
    intro f hf
    cases hs : startsWithMarker f.name with
    | true => simp [cleanupTarget, hs, h f hf hs]
    | false => simp [cleanupTarget, hs]
  · show ((cleanup_all f1 store).1.filter (fun f => cleanupTarget f2 f)).length = 0
    rw [List.length_eq_zero]
    rw [List.filter_eq_nil_iff]
    intro f hf
    have hs := hnomark f hf
    simp [cleanupTarget, hs]

/-- Witness for C5 on a concrete two-file store with no removal failures:
the first pass cleans exactly the generated file, the second pass cleans
nothing. -/
theorem C5_cleanup_idem_witness :
    (handle_cleanup_request (fun _ => false)
      [⟨"tts_temp_9.mp3", 0⟩, ⟨"keep.mp3", 0⟩]).2.status = 200 ∧
    (handle_cleanup_request (fun _ => false)
      [⟨"tts_temp_9.mp3", 0⟩, ⟨"keep.mp3", 0⟩]).2.success = true ∧
    (handle_cleanup_request (fun _ => false)
      [⟨"tts_temp_9.mp3", 0⟩, ⟨"keep.mp3", 0⟩]).2.cleaned_files
      = ([⟨"tts_temp_9.mp3", 0⟩, ⟨"keep.mp3", 0⟩].filter
          (fun f : StoredFile => startsWithMarker f.name)).length ∧
    (∀ f ∈ (handle_cleanup_request (fun _ => false)
        [⟨"tts_temp_9.mp3", 0⟩, ⟨"keep.mp3", 0⟩]).1,
      startsWithMarker f.name = false) ∧
    (handle_cleanup_request (fun _ => false)
      (handle_cleanup_request (fun _ => false)
        [⟨"tts_temp_9.mp3", 0⟩, ⟨"keep.mp3", 0⟩]).1).2.cleaned_files = 0 :=
  C5_cleanup_idem [⟨"tts_temp_9.mp3", 0⟩, ⟨"keep.mp3", 0⟩]
    (fun _ => false) (fun _ => false) (by decide)

end TTSSTT
